import Mathlib

/-!
Shallow embedding of the resume-parsing core of the AI-RESUME-FULLSTACK
repository (Django app `resumes` plus its `services/resume_parser.py` and
`schemas.py`), with theorems settling the specification claims about it.

Conventions of the embedding:
* Python strings are Lean `String`; Python truthiness of a string is `s ≠ ""`,
  of a list is `l ≠ []`, of an `Option` value is `· ≠ none` (refined to the
  concrete checks the source performs).
* Django model saves are modelled as explicit state values; the persisted
  status history of a record is collected as a list.
* The language-model service and the text-extraction libraries are opaque
  collaborators, passed in as function parameters (oracles).
* Python `set` values are Lean `Finset String` (unordered, deduplicated).
* Python `round(x, 2)` (round-half-to-even) is modelled exactly over `ℚ`.
-/

namespace AIResume

/-! ## Schema layer: `src/resumes/schemas.py` -/

/-- Drop leading and trailing whitespace characters from a character list. -/
def stripList (l : List Char) : List Char :=
  ((l.dropWhile Char.isWhitespace).reverse.dropWhile Char.isWhitespace).reverse

/-- Python `str.strip()`: remove leading and trailing whitespace. -/
def pyStrip (s : String) : String := ⟨stripList s.data⟩

/-- Python `str.lower()`: lowercase every character. -/
def pyLower (s : String) : String := ⟨s.data.map Char.toLower⟩

/-- `ResumeParsedSchema.clean_skills` (schemas.py lines 105-118), one step of
the loop: `seen` is the set of lowercased skills already kept (a Python `set`,
modelled as a list with membership), and the result is the `cleaned` list the
loop builds by appending.  The Python loop
```
for skill in v:
    skill_clean = skill.strip()
    if skill_clean and skill_clean.lower() not in seen:
        seen.add(skill_clean.lower()); cleaned.append(skill_clean)
```
is rendered as structural recursion producing the same list, with
`skill_clean = pyStrip skill` inlined. -/
def cleanSkillsAux (seen : List String) : List String → List String
  | [] => []
  | skill :: rest =>
    if pyStrip skill ≠ "" ∧ pyLower (pyStrip skill) ∉ seen then
      pyStrip skill :: cleanSkillsAux (pyLower (pyStrip skill) :: seen) rest
    else cleanSkillsAux seen rest

/-- `ResumeParsedSchema.clean_skills` (schemas.py lines 105-118): applied by
pydantic to the `skills`, `technical_skills` and `soft_skills` fields of the
rich schema.  `if v: ... return cleaned; return []` — on the empty list both
branches yield `[]`, so the guard is dropped. -/
def clean_skills (v : List String) : List String := cleanSkillsAux [] v

/-- The three skills lists of the rich schema `ResumeParsedSchema`
(schemas.py lines 71-73); the remaining fields of the rich schema do not
interact with skills validation. -/
structure RichSkills where
  skills : List String
  technical_skills : List String
  soft_skills : List String
deriving DecidableEq, Repr

/-- Pydantic validation of the rich schema applies `clean_skills` to each of
the three skills lists (the `@field_validator('skills', 'technical_skills',
'soft_skills')` decoration, schemas.py line 105). -/
def validateRichSkills (r : RichSkills) : RichSkills :=
  ⟨clean_skills r.skills, clean_skills r.technical_skills, clean_skills r.soft_skills⟩

/-- `SimpleResumeParsedSchema` (schemas.py lines 122-134).  Note: this class
declares NO validator on any field — in particular no `clean_skills` — so a
validated instance carries the model-supplied lists unchanged.  Optional
fields are `Option`, list fields default to `[]` (pydantic
`default_factory=list`). -/
structure SimpleResumeParsed where
  name : String
  email : Option String := none
  phone : Option String := none
  location : Option String := none
  summary : Option String := none
  skills : List String := []
  experience : List String := []
  education : List String := []
  total_experience_years : Option Int := none
deriving DecidableEq, Repr

/-- `WorkExperience` (schemas.py lines 8-22) after validation:
`company`, `position`, `start_date`, `end_date` required, the rest optional
with list defaults. -/
structure WorkExperience where
  company : String
  position : String
  location : Option String := none
  start_date : String
  end_date : String
  description : Option String := none
  achievements : List String := []
deriving DecidableEq, Repr

/-- Raw (pre-validation) data for a `WorkExperience` entry: every field the
model may or may not supply.  `none` is an absent key. -/
structure RawWorkExperience where
  company : Option String := none
  position : Option String := none
  location : Option String := none
  start_date : Option String := none
  end_date : Option String := none
  description : Option String := none
  achievements : Option (List String) := none
deriving DecidableEq, Repr

/-- Pydantic field-level failure: a required field missing from the raw data. -/
inductive SchemaError
  | missingField (field : String)
deriving DecidableEq, Repr

/-- `WorkExperience.validate_end_date` (schemas.py lines 18-22):
`if not v: return 'Present'; return v`.  The validator receives a `str`, so
Python falsiness is the empty string. -/
def validate_end_date (v : String) : String := if v = "" then "Present" else v

/-- Pydantic v2 construction of a `WorkExperience` from raw parsed data:
required fields (`company`, `position`, `start_date`, `end_date`) raise a
missing-field validation error when absent, BEFORE any `@field_validator`
runs; the default-mode (`after`) validator `validate_end_date` runs only on a
value that was present and passed the `str` type check.  Optional fields fall
back to their declared defaults. -/
def parseWorkExperience (raw : RawWorkExperience) : Except SchemaError WorkExperience :=
  match raw.company with
  | none => .error (.missingField "company")
  | some company =>
    match raw.position with
    | none => .error (.missingField "position")
    | some position =>
      match raw.start_date with
      | none => .error (.missingField "start_date")
      | some start_date =>
        match raw.end_date with
        | none => .error (.missingField "end_date")
        | some ed =>
          .ok { company := company, position := position, location := raw.location,
                start_date := start_date, end_date := validate_end_date ed,
                description := raw.description,
                achievements := raw.achievements.getD [] }

/-! ## Parser service: `src/resumes/services/resume_parser.py` -/

/-- Error taxonomy of the parsing pipeline (spec §7 names; in the source each
is a `ValueError`/`Exception` carrying the shown message). -/
inductive ParseFailure
  | emptyDocument
  | unsupportedFileType (t : String)
  | extractionFailure (msg : String)
  | schemaValidationError (msg : String)
  | missingCredential
deriving DecidableEq, Repr

/-- Python `a or b` on optional strings (resume_parser.py line 21:
`api_key or getattr(settings, 'GROQ_API_KEY', None)`): a falsy left operand
(`None` or the empty string) yields the right operand. -/
def pyOrStr (a b : Option String) : Option String :=
  match a with
  | some s => if s = "" then b else some s
  | none => b

/-- The constructed parser object: its credential and fixed model settings
(resume_parser.py lines 26-30). -/
structure ResumeParser where
  api_key : String
  model : String := "llama-3.1-8b-instant"
  temperature : Nat := 0
deriving DecidableEq, Repr

/-- `ResumeParser.__init__` (resume_parser.py lines 19-30): resolve the
credential as `api_key or settings.GROQ_API_KEY`, fail when the result is
falsy (`None` or `""`), otherwise construct the client object.  No file I/O
and no model call occurs here: the construction only stores configuration. -/
def mkResumeParser (api_key settingsKey : Option String) : Except ParseFailure ResumeParser :=
  match pyOrStr api_key settingsKey with
  | none => .error .missingCredential
  | some k =>
    if k = "" then .error .missingCredential
    else .ok { api_key := k }

/-- The system portion of the prompt (resume_parser.py lines 86-102), with the
schema format instructions substituted for the placeholder. -/
def buildPrompt (formatInstructions resumeText : String) : String :=
  String.append "You are an expert resume parser. Extract information EXACTLY according to the provided schema. Rules: Output ONLY valid JSON that conforms to the schema. Do NOT include explanations, markdown, or additional text. Do NOT infer or calculate values. If information is missing, use null or empty arrays. Preserve original wording and date formats exactly as written. Extract skills from both the skills section and experience descriptions. "
    (String.append formatInstructions
      (String.append " Parse the following resume text: " resumeText))

/-- `ResumeParser.parse_resume` (resume_parser.py lines 62-119) for the simple
schema, given the already-extracted text (text extraction is an opaque
collaborator; `extract_text` strips its result, and `parse_resume` re-checks
`if not resume_text.strip()`).  `llm` is the opaque model service;
`schemaParse` is the pydantic output parser applied to the model response.
The second component counts outbound model-service calls. -/
def parse_resume (resume_text : String) (llm : String → String)
    (schemaParse : String → Except String SimpleResumeParsed) :
    Except ParseFailure SimpleResumeParsed × Nat :=
  if pyStrip resume_text = "" then (.error .emptyDocument, 0)
  else
    let response := llm (buildPrompt "format-instructions" resume_text)
    match schemaParse response with
    | .ok d => (.ok d, 1)
    | .error e => (.error (.schemaValidationError e), 1)

/-! ## Record lifecycle: `src/resumes/models.py` and `views.py` -/

/-- `ParsedResume.STATUS_CHOICES` (models.py lines 9-14). -/
inductive Status
  | pending
  | processing
  | completed
  | failed
deriving DecidableEq, Repr

/-- The mutable fields of a `ParsedResume` record the lifecycle touches
(models.py lines 6-38): parsed payload (default empty mapping, modelled as
`none`), flattened skills, nullable experience years, nullable education
level, status, nullable error message. -/
structure ParsedResume where
  parsed_data : Option SimpleResumeParsed := none
  skills : List String := []
  experience_years : Option Int := none
  education_level : Option String := none
  status : Status := .pending
  error_message : Option String := none
deriving DecidableEq, Repr

/-- Python `d.get(key, 0)` for the `total_experience_years` key of the parse
result (views.py line 81).  The result of `parse_resume` is
`parsed_data.dict()`: a pydantic dump, which contains EVERY declared field as
a key — an unextracted optional field is present with value `None`.  `entry`
is the dict's binding for the key (`none` = key absent, in which case `.get`
returns the default `0`; `some v` = key present with value `v`, possibly
`None`). -/
def dictGetIntOr (entry : Option (Option Int)) (dflt : Int) : Option Int :=
  match entry with
  | none => some dflt
  | some v => v

/-- Outcome of one `_process_resume` run: the final record, the list of
statuses persisted by successive `save()` calls, and the value returned or
exception re-raised to the upload view. -/
structure ProcessOutcome where
  record : ParsedResume
  statusTrace : List Status
  result : Except String Unit
deriving Repr

/-- `_process_resume` (views.py lines 61-101), with the parser outcome for the
record's file supplied as `parseResult` (the `parser.parse_resume(...)` call
with `use_simple=True`; `.error e` is a raised exception with message `e`).
On success: store the payload, copy `skills` (`.get('skills', [])` — the key
is always present in the dump), copy `total_experience_years` via
`.get(_, 0)`, set the education level from the first education entry when the
list is non-empty (simple-schema entries are strings, so the
`isinstance(education[0], str)` test holds), set `completed`, save.  On an
exception from parsing: record the message, set `failed`, save, re-raise.
Persistence and the subsequent profile recalculation are modelled as
non-failing. -/
def processResume (r : ParsedResume) (parseResult : Except String SimpleResumeParsed) :
    ProcessOutcome :=
  let r1 : ParsedResume := { r with status := .processing }
  match parseResult with
  | .error e =>
    let r2 : ParsedResume := { r1 with status := .failed, error_message := some e }
    ⟨r2, [r1.status, r2.status], .error e⟩
  | .ok d =>
    let r2 : ParsedResume :=
      { r1 with
        parsed_data := some d,
        skills := d.skills,
        experience_years := dictGetIntOr (some d.total_experience_years) 0,
        education_level :=
          match d.education with
          | [] => r1.education_level
          | e :: _ => some e,
        status := .completed }
    ⟨r2, [r1.status, r2.status], .ok ()⟩

/-! ## Profile completion: `views.py` `_calculate_profile_completion` -/

/-- The user fields the scorer reads (accounts/models.py lines 5-25 plus the
`resumes` reverse relation, ordered most-recent-first per
`ParsedResume.Meta.ordering = ['-created_at']`).  Unset `CharField`s are the
empty string (Python falsy). -/
structure User where
  first_name : String := ""
  last_name : String := ""
  email : String := ""
  role : String := ""
  resumes : List ParsedResume := []
deriving DecidableEq, Repr

/-- `ProfileCompletion` fields the scorer writes (models.py lines 64-78). -/
structure ProfileCompletion where
  completion_score : Int := 0
  missing_fields : List String := []
  suggestions : List String := []
deriving DecidableEq, Repr

/-- The user's completed resumes, most recent first:
`user.resumes.filter(status='completed')` (views.py lines 150, 155);
`.exists()` is non-emptiness and `.first()` is the head. -/
def completedResumes (u : User) : List ParsedResume :=
  u.resumes.filter (fun r => r.status == Status.completed)

/-- `_calculate_profile_completion` (views.py lines 127-179).  The four
if/else blocks accumulate `score`, `missing` and `suggestions` in source
order (name, email, resume with nested skills check, role); the nested check
`latest_resume and latest_resume.skill_count > 0` uses
`ParsedResume.skill_count = len(skills) if skills else 0` (models.py lines
58-61), i.e. the length of the flattened skill list.  The accumulation is
rendered as shadowing destructuring lets, one per source block. -/
def calculateProfileCompletion (u : User) : ProfileCompletion :=
  let score : Int := 0
  let missing : List String := []
  let suggestions : List String := []
  let (score, missing, suggestions) :=
    if u.first_name ≠ "" ∧ u.last_name ≠ "" then (score + 20, missing, suggestions)
    else (score, missing ++ ["name"], suggestions ++ ["Complete your name"])
  let (score, missing, suggestions) :=
    if u.email ≠ "" then (score + 20, missing, suggestions)
    else (score, missing ++ ["email"], suggestions ++ ["Add your email address"])
  let (score, missing, suggestions) :=
    match completedResumes u with
    | latest :: _ =>
      if 0 < latest.skills.length then (score + 30 + 15, missing, suggestions)
      else (score + 30, missing, suggestions ++ ["Add more skills to your resume"])
    | [] =>
      (score, missing ++ ["resume"], suggestions ++ ["Upload your resume to boost your profile"])
  let (score, missing, suggestions) :=
    if u.role ≠ "" then (score + 15, missing, suggestions)
    else (score, missing ++ ["role"], suggestions ++ ["Select your role (Candidate/Recruiter)"])
  ⟨score, missing, suggestions⟩

/-- The persistent state touched by a recalculation: the user row (with its
resumes) and the user's `ProfileCompletion` row (`none` when no row exists
yet). -/
structure CompletionState where
  user : User
  completion : Option ProfileCompletion
deriving DecidableEq, Repr

/-- The `ProfileCompletion.objects.update_or_create(user=..., defaults=...)`
upsert at views.py lines 172-179: the computed score, missing list and
suggestions replace the stored row wholesale; the user row is not written. -/
def recalcProfileCompletion (s : CompletionState) : CompletionState :=
  { s with completion := some (calculateProfileCompletion s.user) }

/-! ## Job application match scoring: `views.py` `apply_job` -/

/-- Python `round(x, 2)` on the exact rational value: round half to even at
the second decimal place. -/
def pyRound2 (q : ℚ) : ℚ :=
  let c := q * 100
  let f : ℤ := ⌊c⌋
  let frac := c - f
  let n : ℤ :=
    if frac < 1/2 then f
    else if 1/2 < frac then f + 1
    else if f % 2 = 0 then f else f + 1
  (n : ℚ) / 100

/-- The match fields of a `JobApplication` (models.py lines 244-246):
nullable float score, matching and missing skill collections (written from
Python `set` values, hence `Finset`), list-valued defaults. -/
structure JobApplication where
  match_score : Option ℚ := none
  matching_skills : Finset String := ∅
  missing_skills : Finset String := ∅
deriving DecidableEq

/-- The match computation inside `apply_job`'s `if resume and resume.skills:`
branch (views.py lines 448-461):
`matching = list(set(resume.skills) & set(job.required_skills))`,
`missing = list(set(job.required_skills) - set(resume.skills))`,
`match_score = (len(matching)/len(job.required_skills))*100` when
`job.required_skills` is truthy else `0`, stored as `round(match_score, 2)`. -/
def computeMatch (skills required : List String) : JobApplication :=
  let matching := skills.toFinset ∩ required.toFinset
  let missing := required.toFinset \ skills.toFinset
  let match_score : ℚ :=
    if required ≠ [] then ((matching.card : ℚ) / (required.length : ℚ)) * 100 else 0
  { match_score := some (pyRound2 match_score),
    matching_skills := matching,
    missing_skills := missing }

/-- The application as persisted by `apply_job` (views.py lines 439-461):
created with default match fields, then updated with the computed match data
only when a resume was selected AND its stored skill list is truthy
(non-empty); otherwise the defaults (`match_score` null, empty lists)
remain. -/
def applyJobMatch (resume : Option ParsedResume) (required : List String) : JobApplication :=
  match resume with
  | none => {}
  | some r => if r.skills ≠ [] then computeMatch r.skills required else {}

/-! ## Lemmas about `clean_skills` -/

/-- Every element kept by the cleaning loop is the stripped form of some input
entry, is non-empty, and its lowercase form was not in `seen` on entry. -/
theorem mem_cleanSkillsAux {s : String} :
    ∀ (v seen : List String), s ∈ cleanSkillsAux seen v →
      (∃ o ∈ v, s = pyStrip o) ∧ s ≠ "" ∧ pyLower s ∉ seen
  | [], seen, h => by simp [cleanSkillsAux] at h
  | skill :: rest, seen, h => by
    simp only [cleanSkillsAux] at h
    split at h
    case isTrue hg =>
      rcases List.mem_cons.mp h with rfl | hmem
      · exact ⟨⟨skill, List.mem_cons_self _ _, rfl⟩, hg.1, hg.2⟩
      · obtain ⟨⟨o, ho, rfl⟩, hne, hnot⟩ := mem_cleanSkillsAux rest _ hmem
        exact ⟨⟨o, List.mem_cons_of_mem _ ho, rfl⟩, hne,
          fun hs => hnot (List.mem_cons_of_mem _ hs)⟩
    case isFalse hg =>
      obtain ⟨⟨o, ho, rfl⟩, hne, hnot⟩ := mem_cleanSkillsAux rest seen h
      exact ⟨⟨o, List.mem_cons_of_mem _ ho, rfl⟩, hne, hnot⟩

/-- The cleaning loop never emits two entries with the same lowercase form. -/
theorem pairwise_cleanSkillsAux :
    ∀ (v seen : List String),
      (cleanSkillsAux seen v).Pairwise (fun a b => pyLower a ≠ pyLower b)
  | [], _ => by simp [cleanSkillsAux]
  | skill :: rest, seen => by
    simp only [cleanSkillsAux]
    split
    case isTrue hg =>
      refine List.Pairwise.cons (fun b hb hEq => ?_) (pairwise_cleanSkillsAux rest _)
      exact (mem_cleanSkillsAux rest _ hb).2.2 (hEq ▸ List.mem_cons_self _ _)
    case isFalse hg => exact pairwise_cleanSkillsAux rest seen

/-- The cleaned list is a sublist of the stripped input list: order of first
occurrences is preserved. -/
theorem cleanSkillsAux_sublist :
    ∀ (v seen : List String), List.Sublist (cleanSkillsAux seen v) (v.map pyStrip)
  | [], _ => by simp [cleanSkillsAux]
  | skill :: rest, seen => by
    simp only [cleanSkillsAux, List.map_cons]
    split
    case isTrue hg => exact List.Sublist.cons₂ _ (cleanSkillsAux_sublist rest _)
    case isFalse hg => exact List.Sublist.cons _ (cleanSkillsAux_sublist rest seen)

/-- Every input entry that strips to a non-empty string is represented in the
output, case-insensitively — unless its lowercase form was already `seen`. -/
theorem cleanSkillsAux_complete :
    ∀ (v seen : List String) (s : String), s ∈ v → pyStrip s ≠ "" →
      pyLower (pyStrip s) ∈ seen ∨
        ∃ t ∈ cleanSkillsAux seen v, pyLower t = pyLower (pyStrip s)
  | [], _, s, h, _ => absurd h (List.not_mem_nil s)
  | skill :: rest, seen, s, h, hne => by
    simp only [cleanSkillsAux]
    split
    case isTrue hg =>
      rcases List.mem_cons.mp h with rfl | hmem
      · exact Or.inr ⟨pyStrip s, List.mem_cons_self _ _, rfl⟩
      · rcases cleanSkillsAux_complete rest (pyLower (pyStrip skill) :: seen) s hmem hne with
          hin | ⟨t, ht, hEq⟩
        · rcases List.mem_cons.mp hin with hEq2 | hin2
          · exact Or.inr ⟨pyStrip skill, List.mem_cons_self _ _, hEq2.symm⟩
          · exact Or.inl hin2
        · exact Or.inr ⟨t, List.mem_cons_of_mem _ ht, hEq⟩
    case isFalse hg =>
      rcases List.mem_cons.mp h with rfl | hmem
      · rcases not_and_or.mp hg with h1 | h2
        · exact absurd (not_not.mp h1) hne
        · exact Or.inl (not_not.mp h2)
      · exact cleanSkillsAux_complete rest seen s hmem hne

/-! ## Concrete fixtures used by the scenario claims -/

/-- A completed resume record with a non-empty skill list. -/
def resumeWithSkills : ParsedResume :=
  { status := .completed, skills := ["Python", "Django", "SQL"] }

/-- A completed resume record with an empty skill list. -/
def resumeNoSkills : ParsedResume := { status := .completed, skills := [] }

/-- A user with full name, email, a completed resume with skills, and a role. -/
def userFull : User :=
  { first_name := "Ada", last_name := "Lovelace", email := "ada@example.com",
    role := "candidate", resumes := [resumeWithSkills] }

/-- `userFull` with the role cleared. -/
def userNoRole : User := { userFull with role := "" }

/-- `userFull` whose only completed resume has an empty skill list. -/
def userEmptySkills : User := { userFull with resumes := [resumeNoSkills] }

/-- Raw work-experience data with a blank (empty-string) end date. -/
def rawBlankEnd : RawWorkExperience :=
  { company := some "Acme", position := some "Dev", start_date := some "Jan 2020",
    end_date := some "" }

/-- Raw work-experience data with no end-date key at all. -/
def rawAbsentEnd : RawWorkExperience :=
  { company := some "Acme", position := some "Dev", start_date := some "Jan 2020" }

/-- The validated entry the blank-end-date raw data parses to. -/
def weBlankEnd : WorkExperience :=
  { company := "Acme", position := "Dev", start_date := "Jan 2020", end_date := "Present" }

/-- The nested skills signal of the scorer: the most recent completed resume
exists and has `skill_count > 0` (views.py lines 155-156). -/
def skillsSignal (u : User) : Bool :=
  match completedResumes u with
  | [] => false
  | latest :: _ => decide (0 < latest.skills.length)

/-! ## Claim theorems -/

/-- C1, counterexample: the claim fails for the simple schema variant, which
is the one processing uses (`use_simple=True`).  `SimpleResumeParsedSchema`
declares no skills validator, so a model response yielding skills
`["Python", "python", "SQL"]` is stored in the completed record exactly as
is, not case-insensitively deduplicated to `["Python", "SQL"]`. -/
theorem simple_schema_skills_not_cleaned :
    (processResume {} (.ok { name := "Ada", skills := ["Python", "python", "SQL"] })).record.skills
        = ["Python", "python", "SQL"] ∧
    (processResume {} (.ok { name := "Ada", skills := ["Python", "python", "SQL"] })).record.status
        = Status.completed ∧
    ["Python", "python", "SQL"] ≠ ["Python", "SQL"] :=
  ⟨rfl, rfl, by decide⟩

/-- C1, amended: for the RICH schema variant, `clean_skills` leaves every
skills list with each entry the stripped form of an input entry, no empty
strings, no two entries equal under case-insensitive comparison, and
first-seen order preserved (the output is a sublist of the stripped input,
and every input entry that strips non-empty is represented case-insensitively
by a first occurrence); on `["Python", "python", "SQL"]` it yields
`["Python", "SQL"]`.  The SIMPLE variant — the one record processing uses —
applies no cleaning, so the stored flattened skill list equals the model
response's list verbatim. -/
theorem clean_skills_spec :
    (∀ v : List String, ∀ s ∈ clean_skills v, (∃ o ∈ v, s = pyStrip o) ∧ s ≠ "") ∧
    (∀ v : List String, (clean_skills v).Pairwise (fun a b => pyLower a ≠ pyLower b)) ∧
    (∀ v : List String, List.Sublist (clean_skills v) (v.map pyStrip)) ∧
    (∀ v : List String, ∀ s ∈ v, pyStrip s ≠ "" →
        ∃ t ∈ clean_skills v, pyLower t = pyLower (pyStrip s)) ∧
    clean_skills ["Python", "python", "SQL"] = ["Python", "SQL"] ∧
    (∀ d : SimpleResumeParsed, ∀ r : ParsedResume,
        (processResume r (.ok d)).record.skills = d.skills) := by
  refine ⟨fun v s hs => ⟨(mem_cleanSkillsAux v [] hs).1, (mem_cleanSkillsAux v [] hs).2.1⟩,
    fun v => pairwise_cleanSkillsAux v [],
    fun v => cleanSkillsAux_sublist v [],
    fun v s hv hne => ?_, by decide, fun d r => rfl⟩
  rcases cleanSkillsAux_complete v [] s hv hne with h | h
  · exact absurd h (List.not_mem_nil _)
  · exact h

/-- C1, witness: the amended theorem applied at concrete inputs. -/
theorem clean_skills_spec_witness :
    ((∃ o ∈ ["  Python ", "python", "SQL"], "Python" = pyStrip o) ∧ "Python" ≠ "") ∧
    (∃ t ∈ clean_skills ["Python", "python", "SQL"], pyLower t = pyLower (pyStrip "SQL")) :=
  ⟨clean_skills_spec.1 ["  Python ", "python", "SQL"] "Python" (by decide),
   clean_skills_spec.2.2.2.1 ["Python", "python", "SQL"] "SQL" (by decide) (by decide)⟩

/-- C2: a processing run starting from a `pending` record persists exactly the
status sequence pending, processing, completed (on parser success) or
pending, processing, failed (on parser failure): the status never moves
backwards, a persisted `completed` is never overwritten with `failed`, and no
record returns to `pending`. -/
theorem status_transitions_forward (r : ParsedResume)
    (pr : Except String SimpleResumeParsed) (h : r.status = Status.pending) :
    r.status :: (processResume r pr).statusTrace
        = [Status.pending, Status.processing, Status.completed] ∨
    r.status :: (processResume r pr).statusTrace
        = [Status.pending, Status.processing, Status.failed] := by
  cases pr <;> simp [processResume, h]

/-- C2, witness: the transition theorem at a concrete failing run. -/
theorem status_transitions_forward_witness :
    ({} : ParsedResume).status :: (processResume {} (.error "boom")).statusTrace
        = [Status.pending, Status.processing, Status.completed] ∨
    ({} : ParsedResume).status :: (processResume {} (.error "boom")).statusTrace
        = [Status.pending, Status.processing, Status.failed] :=
  status_transitions_forward {} (.error "boom") rfl

/-- C3: when the extracted text consists only of whitespace characters (which
includes the empty text), `parse_resume` fails with `EmptyDocument` and the
model-service call count is zero. -/
theorem empty_document_no_model_call (resume_text : String) (llm : String → String)
    (schemaParse : String → Except String SimpleResumeParsed)
    (h : ∀ c ∈ resume_text.data, c.isWhitespace) :
    parse_resume resume_text llm schemaParse = (.error .emptyDocument, 0) := by
  have h1 : resume_text.data.dropWhile Char.isWhitespace = [] :=
    List.dropWhile_eq_nil_iff.mpr h
  have h2 : pyStrip resume_text = "" := by
    simp [pyStrip, stripList, h1]
  simp [parse_resume, h2]

/-- C3, witness: the empty-document theorem at whitespace-only text. -/
theorem empty_document_no_model_call_witness :
    parse_resume "  \n " (fun _ => "response") (fun _ => .error "invalid")
        = (.error .emptyDocument, 0) :=
  empty_document_no_model_call "  \n " (fun _ => "response") (fun _ => .error "invalid")
    (by decide)

/-- C4, counterexample: a successful run whose parsed result has no
total-experience-years value stores a NULL experience-years on the completed
record, not 0: the pydantic dump always contains the
`total_experience_years` key (with value `None` when unextracted), so the
`.get(..., 0)` default never applies. -/
theorem null_experience_years_stored :
    (processResume {} (.ok { name := "Ada" })).record.status = Status.completed ∧
    ({ name := "Ada" } : SimpleResumeParsed).total_experience_years = none ∧
    (processResume {} (.ok { name := "Ada" })).record.experience_years = none ∧
    (none : Option Int) ≠ some 0 :=
  ⟨rfl, rfl, rfl, by decide⟩

/-- C4, amended: on every successful processing run the record's
experience-years field receives the parsed result's total-experience-years
value unchanged (null stays null); the lookup's 0 default would apply only to
a mapping missing the key, which a schema dump never is. -/
theorem experience_years_copied (r : ParsedResume) (d : SimpleResumeParsed) :
    (processResume r (.ok d)).record.experience_years = d.total_experience_years ∧
    dictGetIntOr none 0 = some 0 :=
  ⟨rfl, rfl⟩

/-- C5: for a non-empty required-skill list, the computed match data has
matching = set intersection of applicant and required skills, missing =
required minus matching, and score = 100 × |matching| / |required| rounded to
two decimal places; the score is 0 when the required list is empty; on
applicant skills {Python, SQL, Go} against required {Python, Go, Rust} the
result is matching {Python, Go}, missing {Rust}, score 66.67. -/
theorem match_score_formula :
    (∀ skills required : List String, required ≠ [] →
      (computeMatch skills required).matching_skills = skills.toFinset ∩ required.toFinset ∧
      (computeMatch skills required).missing_skills
          = required.toFinset \ (computeMatch skills required).matching_skills ∧
      (computeMatch skills required).match_score
          = some (pyRound2 (((skills.toFinset ∩ required.toFinset).card : ℚ)
              / (required.length : ℚ) * 100))) ∧
    (∀ skills : List String, (computeMatch skills []).match_score = some 0) ∧
    (computeMatch ["Python", "SQL", "Go"] ["Python", "Go", "Rust"]).matching_skills
        = {"Python", "Go"} ∧
    (computeMatch ["Python", "SQL", "Go"] ["Python", "Go", "Rust"]).missing_skills = {"Rust"} ∧
    (computeMatch ["Python", "SQL", "Go"] ["Python", "Go", "Rust"]).match_score
        = some (6667/100 : ℚ) := by
  refine ⟨fun skills required hreq => ⟨rfl, ?_, ?_⟩, fun skills => ?_, by decide, by decide, ?_⟩
  · ext a
    simp only [computeMatch, Finset.mem_sdiff, Finset.mem_inter]
    tauto
  · simp only [computeMatch, if_pos hreq]
  · simp only [computeMatch]
    norm_num [pyRound2]
  · have hcard : (((["Python", "SQL", "Go"] : List String).toFinset
        ∩ (["Python", "Go", "Rust"] : List String).toFinset)).card = 2 := by decide
    simp only [computeMatch, hcard]
    rw [if_pos (by decide : (["Python", "Go", "Rust"] : List String) ≠ [])]
    norm_num [pyRound2]

/-- C5, witness: the formula theorem at a concrete non-empty required list. -/
theorem match_score_formula_witness :
    (computeMatch ["Python"] ["Python", "Rust"]).matching_skills
        = (["Python"] : List String).toFinset ∩ (["Python", "Rust"] : List String).toFinset ∧
    (computeMatch ["Python"] ["Python", "Rust"]).missing_skills
        = (["Python", "Rust"] : List String).toFinset
            \ (computeMatch ["Python"] ["Python", "Rust"]).matching_skills ∧
    (computeMatch ["Python"] ["Python", "Rust"]).match_score
        = some (pyRound2 ((((["Python"] : List String).toFinset
            ∩ (["Python", "Rust"] : List String).toFinset).card : ℚ)
            / ((["Python", "Rust"] : List String).length : ℚ) * 100)) :=
  match_score_formula.1 ["Python"] ["Python", "Rust"] (by decide)

/-- Case-by-case characterization of `_calculate_profile_completion`: score,
missing-field labels and suggestions as functions of the five signals. -/
theorem calculateProfileCompletion_eq (u : User) :
    calculateProfileCompletion u =
      { completion_score :=
          (if u.first_name ≠ "" ∧ u.last_name ≠ "" then 20 else 0) +
          (if u.email ≠ "" then 20 else 0) +
          (if completedResumes u ≠ [] then 30 else 0) +
          (if skillsSignal u then 15 else 0) +
          (if u.role ≠ "" then 15 else 0),
        missing_fields :=
          (if u.first_name ≠ "" ∧ u.last_name ≠ "" then [] else ["name"]) ++
          (if u.email ≠ "" then [] else ["email"]) ++
          (if completedResumes u ≠ [] then [] else ["resume"]) ++
          (if u.role ≠ "" then [] else ["role"]),
        suggestions :=
          (if u.first_name ≠ "" ∧ u.last_name ≠ "" then [] else ["Complete your name"]) ++
          (if u.email ≠ "" then [] else ["Add your email address"]) ++
          (if completedResumes u ≠ [] then
            (if skillsSignal u then [] else ["Add more skills to your resume"])
           else ["Upload your resume to boost your profile"]) ++
          (if u.role ≠ "" then [] else ["Select your role (Candidate/Recruiter)"]) } := by
  rcases hres : completedResumes u with _ | ⟨latest, rest⟩
  · by_cases hn : u.first_name ≠ "" ∧ u.last_name ≠ "" <;>
    by_cases he : u.email ≠ "" <;>
    by_cases hr : u.role ≠ "" <;>
    simp [calculateProfileCompletion, skillsSignal, hn, he, hr, hres]
  · by_cases hn : u.first_name ≠ "" ∧ u.last_name ≠ "" <;>
    by_cases he : u.email ≠ "" <;>
    by_cases hr : u.role ≠ "" <;>
    by_cases hs : 0 < latest.skills.length <;>
    simp [calculateProfileCompletion, skillsSignal, hn, he, hr, hs, hres]

/-- C6, counterexample: the claim appends "a missing-field label and one
suggestion ... for each false condition", but for the skills condition the
code appends only the suggestion.  A user whose single false condition is the
skills signal (completed resume present, empty skill list) ends with score 85,
an EMPTY missing-fields list, and one suggestion. -/
theorem skills_condition_appends_no_label :
    completedResumes userEmptySkills ≠ [] ∧
    skillsSignal userEmptySkills = false ∧
    (calculateProfileCompletion userEmptySkills).missing_fields = [] ∧
    (calculateProfileCompletion userEmptySkills).suggestions
        = ["Add more skills to your resume"] ∧
    (calculateProfileCompletion userEmptySkills).completion_score = 85 := by
  decide

/-- C6, amended: the recalculated score is the sum of exactly the five
weights (20 name, 20 email, 30 completed resume, 15 skills on the most recent
completed resume, 15 role); a missing-field label and matching suggestion are
appended for each false condition among name, email, resume and role, while a
false skills condition appends only the "Add more skills to your resume"
suggestion and no label; the full user scores 100 with no missing fields, and
the same user without a role scores 85 with "role" missing and its
suggestion. -/
theorem profile_completion_scoring (u : User) :
    ((calculateProfileCompletion u).completion_score =
      (if u.first_name ≠ "" ∧ u.last_name ≠ "" then 20 else 0) +
      (if u.email ≠ "" then 20 else 0) +
      (if completedResumes u ≠ [] then 30 else 0) +
      (if skillsSignal u then 15 else 0) +
      (if u.role ≠ "" then 15 else 0)) ∧
    ((calculateProfileCompletion u).missing_fields =
      (if u.first_name ≠ "" ∧ u.last_name ≠ "" then [] else ["name"]) ++
      (if u.email ≠ "" then [] else ["email"]) ++
      (if completedResumes u ≠ [] then [] else ["resume"]) ++
      (if u.role ≠ "" then [] else ["role"])) ∧
    ((calculateProfileCompletion u).suggestions =
      (if u.first_name ≠ "" ∧ u.last_name ≠ "" then [] else ["Complete your name"]) ++
      (if u.email ≠ "" then [] else ["Add your email address"]) ++
      (if completedResumes u ≠ [] then
        (if skillsSignal u then [] else ["Add more skills to your resume"])
       else ["Upload your resume to boost your profile"]) ++
      (if u.role ≠ "" then [] else ["Select your role (Candidate/Recruiter)"])) ∧
    calculateProfileCompletion userFull = ⟨100, [], []⟩ ∧
    calculateProfileCompletion userNoRole
        = ⟨85, ["role"], ["Select your role (Candidate/Recruiter)"]⟩ := by
  refine ⟨?_, ?_, ?_, by decide, by decide⟩ <;> rw [calculateProfileCompletion_eq]

/-- C7: profile-completion recalculation is idempotent: with no intervening
state change, recalculating again rewrites the same score, missing-fields
list and suggestions list, and the recalculation itself never mutates the
user or resume state it reads. -/
theorem profile_completion_idempotent (s : CompletionState) :
    recalcProfileCompletion (recalcProfileCompletion s) = recalcProfileCompletion s ∧
    (recalcProfileCompletion s).user = s.user :=
  ⟨rfl, rfl⟩

/-- C8, counterexample: a work-experience entry whose raw data has NO end-date
key is rejected by schema validation (`end_date` is a required field and the
`after`-mode validator never runs), rather than yielding an entry with
end_date "Present" as the claim states. -/
theorem absent_end_date_is_validation_error :
    parseWorkExperience
        { company := some "Acme", position := some "Dev", start_date := some "Jan 2020" }
      = .error (.missingField "end_date") :=
  rfl

/-- C8, amended: an end date present but BLANK is replaced by the literal
"Present" in the returned entry; an end date absent from the raw parsed data
makes validation fail with a missing-field error, so no entry is returned. -/
theorem end_date_present_default (raw : RawWorkExperience) :
    (∀ we : WorkExperience, raw.end_date = some "" → parseWorkExperience raw = .ok we →
        we.end_date = "Present") ∧
    (∀ we : WorkExperience, raw.end_date = none → parseWorkExperience raw ≠ .ok we) ∧
    validate_end_date "" = "Present" := by
  obtain ⟨c, p, l, sd, ed, de, ach⟩ := raw
  refine ⟨fun we hed hok => ?_, fun we hed hok => ?_, rfl⟩
  · cases c <;> cases p <;> cases sd <;>
      simp_all [parseWorkExperience, validate_end_date] <;>
      exact hok ▸ rfl
  · cases c <;> cases p <;> cases sd <;>
      simp_all [parseWorkExperience]

/-- C8, witness: the amended theorem at a blank end date and at an absent
end date. -/
theorem end_date_present_default_witness :
    weBlankEnd.end_date = "Present" ∧ parseWorkExperience rawAbsentEnd ≠ .ok weBlankEnd :=
  ⟨(end_date_present_default rawBlankEnd).1 weBlankEnd rfl rfl,
   (end_date_present_default rawAbsentEnd).2.1 weBlankEnd rfl⟩

/-- C9: constructing the parser with an effectively absent credential (the
Python-falsy resolution of the argument and the configured key is `None` or
the empty string) fails with `MissingCredential` — the constructor performs no
file I/O and no model call, it only resolves configuration — and every
successfully constructed parser holds a non-empty credential, namely the
resolved one. -/
theorem missing_credential_fails_fast :
    (∀ a s : Option String, (pyOrStr a s = none ∨ pyOrStr a s = some "") →
        mkResumeParser a s = .error .missingCredential) ∧
    (∀ a s : Option String, ∀ p : ResumeParser, mkResumeParser a s = .ok p →
        p.api_key ≠ "" ∧ pyOrStr a s = some p.api_key) := by
  constructor
  · intro a s h
    rcases h with h | h <;> simp [mkResumeParser, h]
  · intro a s p hok
    unfold mkResumeParser at hok
    cases hp : pyOrStr a s with
    | none => simp [hp] at hok
    | some k =>
      rw [hp] at hok
      by_cases hk : k = ""
      · simp [hk] at hok
      · simp only [hk, if_false, reduceIte, Except.ok.injEq] at hok
        subst hok
        exact ⟨hk, rfl⟩

/-- C9, witness: the credential theorem at an absent and at a present key. -/
theorem missing_credential_fails_fast_witness :
    mkResumeParser none none = .error .missingCredential ∧
    ((ResumeParser.api_key { api_key := "gsk-test" }) ≠ ""
      ∧ pyOrStr (some "gsk-test") none = some (ResumeParser.api_key { api_key := "gsk-test" })) :=
  ⟨missing_credential_fails_fast.1 none none (Or.inl rfl),
   missing_credential_fails_fast.2 (some "gsk-test") none { api_key := "gsk-test" } rfl⟩

/-- C10: an application submitted with a selected completed resume whose
stored skill list is empty keeps the created defaults — null match score and
empty matching/missing skill sets — even for a non-empty required list, and a
non-null match score can only arise from a non-empty resume skill list. -/
theorem empty_skills_no_match_data (required : List String) (r : ParsedResume) :
    (r.status = Status.completed → r.skills = [] →
        applyJobMatch (some r) required = ({} : JobApplication)) ∧
    ((applyJobMatch (some r) required).match_score ≠ none → r.skills ≠ []) ∧
    ({} : JobApplication).match_score = none ∧
    ({} : JobApplication).matching_skills = ∅ ∧
    ({} : JobApplication).missing_skills = ∅ := by
  refine ⟨fun _ hsk => ?_, fun hscore => ?_, rfl, rfl, rfl⟩
  · simp [applyJobMatch, hsk]
  · intro hsk
    simp [applyJobMatch, hsk] at hscore

/-- C10, witness: the empty-skills theorem at a completed resume with no
skills against a non-empty required list. -/
theorem empty_skills_no_match_data_witness :
    applyJobMatch (some resumeNoSkills) ["Python", "Go"] = ({} : JobApplication) :=
  (empty_skills_no_match_data ["Python", "Go"] resumeNoSkills).1 rfl rfl

end AIResume
